import Mathlib

/-!
Verification of pitunnel_manager.py against its specification.

The Python source is shallowly embedded below. Pure string manipulation is
modelled over explicit character lists so that every definition is executable
and kernel-reducible. External effects (subprocess invocations, signals) are
modelled as explicit data: command outputs are passed in as lists of lines,
exceptions become an error type, and the commands a routine issues are
returned as a trace.
-/

/-! ## String primitives (models of the Python string operations used) -/

/-- Model of the Python substring test (the membership operator on strings):
listInfixOf needle hay decides whether needle occurs contiguously in hay. -/
def listInfixOf (needle : List Char) : List Char → Bool
  | [] => needle.isEmpty
  | c :: cs => needle.isPrefixOf (c :: cs) || listInfixOf needle cs

/-- sub occurs as a contiguous substring of s (Python: sub in s). -/
def strContains (s sub : String) : Bool := listInfixOf sub.data s.data

/-- s starts with p (Python: s.startswith(p)). -/
def strStarts (s p : String) : Bool := p.data.isPrefixOf s.data

/-- s ends with p (Python: s.endswith(p)). -/
def strEnds (s p : String) : Bool := p.data.reverse.isPrefixOf s.data.reverse

/-- Python s.strip(): remove leading and trailing whitespace. -/
def pyStrip (s : String) : String :=
  String.mk (((s.data.dropWhile Char.isWhitespace).reverse.dropWhile Char.isWhitespace).reverse)

/-- Python s.lower() (ASCII case folding suffices for this program). -/
def pyLower (s : String) : String := String.mk (s.data.map Char.toLower)

/-- Python s.isdigit(): nonempty and every character a digit (ASCII digits
suffice for the inputs this program handles). -/
def pyIsdigit (s : String) : Bool := !s.data.isEmpty && s.data.all Char.isDigit

/-- Python s.split(c) for a single-character separator c. -/
def splitCharAux (c : Char) : List Char → List Char → List String
  | [], acc => [String.mk acc.reverse]
  | x :: xs, acc =>
    if x == c then String.mk acc.reverse :: splitCharAux c xs []
    else splitCharAux c xs (x :: acc)

/-- Python s.split(c): split on every occurrence of the character c. -/
def splitChar (c : Char) (s : String) : List String := splitCharAux c s.data []

/-- Python s.split(None, maxsplit): split on whitespace runs, at most maxsplit
splits, the remainder (with leading whitespace removed) is the last field. -/
def pySplitWSAux : Nat → List Char → List (List Char)
  | 0, cs =>
    let cs := cs.dropWhile Char.isWhitespace
    if cs.isEmpty then [] else [cs]
  | n + 1, cs =>
    let cs := cs.dropWhile Char.isWhitespace
    if cs.isEmpty then []
    else cs.takeWhile (fun c => !c.isWhitespace)
         :: pySplitWSAux n (cs.dropWhile (fun c => !c.isWhitespace))

/-- Python s.split(None, maxsplit) returning strings. -/
def pySplit (s : String) (maxsplit : Nat) : List String :=
  (pySplitWSAux maxsplit s.data).map String.mk

/-- Numeric value of a digit string (most significant first). -/
def natOfDigitsAux (acc : Nat) : List Char → Nat
  | [] => acc
  | c :: cs => natOfDigitsAux (acc * 10 + (c.toNat - 48)) cs

/-- Value of a nonempty all-digit character list, none otherwise. -/
def digitsVal (cs : List Char) : Option Nat :=
  if !cs.isEmpty && cs.all Char.isDigit then some (natOfDigitsAux 0 cs) else none

/-- Python int(s): optional surrounding whitespace, optional sign, digits;
none models a ValueError. (Underscore digit separators are not modelled;
the program never feeds them in.) -/
def pyInt (s : String) : Option Int :=
  match (pyStrip s).data with
  | '-' :: rest => (digitsVal rest).map (fun n => -(n : Int))
  | '+' :: rest => (digitsVal rest).map (fun n => (n : Int))
  | cs => (digitsVal cs).map (fun n => (n : Int))

/-- Model of re.search with pattern --port=(digits): leftmost position where
the literal --port= is followed by at least one digit; the captured group is
the maximal digit run there. (pitunnel_manager.py line 89) -/
def findPort : List Char → Option String
  | [] => none
  | c :: cs =>
    if ("--port=".data).isPrefixOf (c :: cs) then
      let ds := ((c :: cs).drop 7).takeWhile Char.isDigit
      if ds.isEmpty then findPort cs else some (String.mk ds)
    else findPort cs

/-- Model of re.search with pattern --name=(non-space run): leftmost position
where the literal --name= is followed by at least one non-space character.
(pitunnel_manager.py line 93) -/
def findName : List Char → Option String
  | [] => none
  | c :: cs =>
    if ("--name=".data).isPrefixOf (c :: cs) then
      let ds := ((c :: cs).drop 7).takeWhile (fun x => x != ' ')
      if ds.isEmpty then findName cs else some (String.mk ds)
    else findName cs

/-! ## Data model -/

/-- A running tunnel process as assembled by get_running_pitunnels:
the dict with keys pid, port, name, type, command. -/
structure RunningTunnel where
  pid : String
  port : String
  name : String
  type : String
  command : String
deriving DecidableEq, Inhabited, Repr

/-- A persistent tunnel definition as assembled by get_persistent_tunnels:
the dict with keys id (cell 1 of the table row) and args (cell 2). -/
structure PersistentTunnel where
  id : String
  args : String
deriving DecidableEq, Inhabited, Repr

/-- The two failure modes of a subprocess.run call that this program can
encounter: subprocess.SubprocessError (which CalledProcessError from a
non-zero exit under check=True specialises) and FileNotFoundError for a
missing binary. -/
inductive CmdError where
  | subprocessError
  | fileNotFound
deriving DecidableEq, Repr

/-- The external effects the remove path can issue: the pitunnel --list
registry query, pitunnel --remove id, pitunnel --stop --port=p, and a direct
termination signal to a pid (the vocabulary the spec uses; the code itself
never sends a signal). -/
inductive ExtCall where
  | listQuery
  | removeById (id : String)
  | stopByPort (port : String)
  | signalPid (pid : String)
deriving DecidableEq, Repr

/-! ## Process discovery: the structured path (pitunnel --status parsing,
pitunnel_manager.py lines 30-57) -/

/-- Header detection: PID, Port and Type all occur in the line (line 37). -/
def statusHeader (line : String) : Bool :=
  strContains line "PID" && strContains line "Port" && strContains line "Type"

/-- Row cells: split on the pipe character, strip each, keep nonempty
(line 41). -/
def statusCells (line : String) : List String :=
  ((splitChar '|' line).map pyStrip).filter (fun p => p != "")

/-- One data row of the status table (lines 42-54): at least 4 cells give
pid, port, type, name, and a reconstructed command string. -/
def statusRow (line : String) : Option RunningTunnel :=
  let parts := statusCells line
  if parts.length ≥ 4 then
    let port := parts[1]!
    let name := parts[3]!
    some { pid := parts[0]!, port := port, name := name, type := parts[2]!,
           command := "pitunnel --port=" ++ port
             ++ (if name != "Unnamed" then " --name=" ++ name else "") }
  else none

/-- The table scan of the status output (lines 35-54): the flag records
whether the header row has been seen; border rows starting with +--- and
blank rows are skipped. -/
def statusGo : Bool → List String → List RunningTunnel
  | _, [] => []
  | tableStart, line :: rest =>
    if statusHeader line then statusGo true rest
    else if tableStart && !(pyStrip line).isEmpty && !strStarts line "+---" then
      match statusRow line with
      | some t => t :: statusGo tableStart rest
      | none => statusGo tableStart rest
    else statusGo tableStart rest

/-- All rows parsed from the status output lines. -/
def parseStatusLines (lines : List String) : List RunningTunnel :=
  statusGo false lines

/-! ## Process discovery: the fallback path (ps aux scan,
pitunnel_manager.py lines 62-107) -/

/-- The line filter of the fallback path (lines 74-77). -/
def psLineKept (line : String) : Bool :=
  (strContains line " pitunnel " || strEnds line " pitunnel")
  && !strContains line "<defunct>"
  && !strContains line "pitunnel_manager.py"
  && !strContains line "pitunnel_terminal"

/-- Parsing one kept ps line (lines 82-105): split into at most 11
whitespace-separated fields, require 11, pid is field 2, the command is the
remainder; port, name and type are extracted from the command. -/
def parsePsLine (line : String) : Option RunningTunnel :=
  let parts := pySplit line 10
  if parts.length ≥ 11 then
    let cmd := parts[10]!
    some { pid := parts[1]!,
           port := (findPort cmd.data).getD "Unknown",
           name := (findName cmd.data).getD "Unnamed",
           type := if strContains cmd "--http" then "HTTP" else "Custom",
           command := cmd }
  else none

/-- The whole fallback path over the ps aux output lines. -/
def psPath (lines : List String) : List RunningTunnel :=
  (lines.filter psLineKept).filterMap parsePsLine

/-- Modelled from the spec: the command token of a process-table line is the
first whitespace-separated word of the command field (the remainder after the
first 10 fields) - the notion the spec uses when it says the fallback keeps
only lines whose command token is exactly the tunnel binary name. -/
def commandToken (line : String) : Option String :=
  let parts := pySplit line 10
  if parts.length ≥ 11 then
    some (String.mk ((parts[10]!).data.takeWhile (fun c => !c.isWhitespace)))
  else none

/-! ## Process discovery: get_running_pitunnels (lines 16-110).
The two subprocess outcomes are passed in: the result of pitunnel --status
and of ps aux, each either output lines or the exception raised. The Bool in
the result records whether the warning of line 109 was printed; an error
result models an exception propagating out of the function. -/

/-- The fallback branch together with the outer exception handler (lines
62-110): ps output is scanned; a SubprocessError is caught, printing the
warning and returning the empty list; a FileNotFoundError is not caught by
the outer handler and propagates. -/
def discovery_fallback (ps : Except CmdError (List String)) :
    Except CmdError (List RunningTunnel × Bool) :=
  match ps with
  | Except.ok lines => Except.ok (psPath lines, false)
  | Except.error CmdError.subprocessError => Except.ok ([], true)
  | Except.error CmdError.fileNotFound => Except.error CmdError.fileNotFound

/-- get_running_pitunnels: try the status query; on SubprocessError or
FileNotFoundError (both caught, line 58), or when zero rows parse (line 56),
fall through to the fallback path. -/
def get_running_pitunnels (status ps : Except CmdError (List String)) :
    Except CmdError (List RunningTunnel × Bool) :=
  match status with
  | Except.ok lines =>
    let parsed := parseStatusLines lines
    if parsed.isEmpty then discovery_fallback ps else Except.ok (parsed, false)
  | Except.error _ => discovery_fallback ps

/-! ## Reconciler (the inline loop of remove_tunnel, lines 244-250) -/

/-- The match condition of line 247: the definition args contain
--port=(port), and when the process name is not Unnamed also --name=(name). -/
def tunnelMatches (port name : String) (t : PersistentTunnel) : Bool :=
  strContains t.args ("--port=" ++ port)
  && (if name != "Unnamed" then strContains t.args ("--name=" ++ name) else true)

/-- The loop of lines 246-250: first matching definition wins, returning
(is_persistent, persistent_id). -/
def reconcile (port name : String) : List PersistentTunnel → Bool × Option String
  | [] => (false, none)
  | t :: rest =>
    if tunnelMatches port name t then (true, some t.id)
    else reconcile port name rest

/-! ## create_tunnel (lines 130-181).
The operator input stream is a list of strings; the result is the command
launched via subprocess.Popen, or none when nothing is launched (cancelled,
or the input stream runs out while the program is still prompting). -/

/-- The port prompt loop of lines 136-140: re-prompt until isdigit. -/
def portLoop : List String → Option (String × List String)
  | [] => none
  | p :: rest => if pyIsdigit p then some (p, rest) else portLoop rest

/-- Command assembly of lines 154-164. -/
def create_command (port ttype name : String) (persistent : Bool) : List String :=
  ["pitunnel", "--port=" ++ port]
  ++ (if ttype == "1" then ["--http"] else [])
  ++ (if name != "" then ["--name=" ++ name] else [])
  ++ (if persistent then ["--persist"] else [])

/-- create_tunnel over an input stream: after the port loop the next four
inputs are tunnel type (stripped, empty defaults to 1), name (stripped),
persistence answer (lowered, persistent iff it starts with y) and the
confirmation (lowered, launch iff it starts with y). -/
def create_tunnel (inputs : List String) : Option (List String) :=
  match portLoop inputs with
  | none => none
  | some (port, rest) =>
    match rest with
    | t :: n :: p :: c :: _ =>
      let ttype := if pyStrip t == "" then "1" else pyStrip t
      let name := pyStrip n
      let persistent := strStarts (pyLower p) "y"
      if strStarts (pyLower c) "y" then some (create_command port ttype name persistent)
      else none
    | _ => none

/-! ## remove_tunnel (lines 220-281).
The function is modelled as the trace of external calls it issues. The
currently displayed processes and the parsed result of the registry query
are parameters; the registry query itself (get_persistent_tunnels, line 228,
running pitunnel --list) is recorded as the first element of the trace. The
operator input stream is a list of strings; an exhausted stream ends the
trace (the program would be blocked at a prompt). -/

/-- The selection loop of lines 230-281. A selection of 0 cancels; a
non-numeric selection (int raises ValueError) or an out-of-range one
re-prompts; a valid selection reads the confirmation: on yes, a matched
definition with a truthy (nonempty) id gets pitunnel --remove id, otherwise
pitunnel --stop --port=(port); on no, nothing. -/
def remove_tunnel_loop (procs : List RunningTunnel) (defs : List PersistentTunnel) :
    List String → List ExtCall
  | [] => []
  | choice :: rest =>
    if choice == "0" then []
    else
      match pyInt choice with
      | none => remove_tunnel_loop procs defs rest
      | some n =>
        if 1 ≤ n ∧ n ≤ (procs.length : Int) then
          match rest with
          | [] => []
          | confirm :: _ =>
            let proc := procs[(n - 1).toNat]!
            let m := reconcile proc.port proc.name defs
            if strStarts (pyLower confirm) "y" then
              match m with
              | (isP, some i) =>
                if isP && i != "" then [ExtCall.removeById i]
                else [ExtCall.stopByPort proc.port]
              | (_, none) => [ExtCall.stopByPort proc.port]
            else []
        else remove_tunnel_loop procs defs rest

/-- remove_tunnel: with no processes it returns at line 225 before any
external call; otherwise it first issues the registry list query and then
runs the selection loop. -/
def remove_tunnel (procs : List RunningTunnel) (defs : List PersistentTunnel)
    (inputs : List String) : List ExtCall :=
  if procs.isEmpty then []
  else ExtCall.listQuery :: remove_tunnel_loop procs defs inputs

/-! ## Theorems -/

/-- C1: for every running process (port, name) and list of persistent
definitions, the reconciler returns is_persistent true together with the id
of the first definition whose raw args contain --port=(port) and, unless the
name is Unnamed, also --name=(name); when no definition qualifies it returns
false with no id. -/
theorem reconcile_first_match (port name : String) (defs : List PersistentTunnel) :
    reconcile port name defs =
      match defs.find? (fun d => strContains d.args ("--port=" ++ port)
          && (name == "Unnamed" || strContains d.args ("--name=" ++ name))) with
      | some d => (true, some d.id)
      | none => (false, none) := by
  have hpred : ∀ d : PersistentTunnel, tunnelMatches port name d
      = (strContains d.args ("--port=" ++ port)
         && (name == "Unnamed" || strContains d.args ("--name=" ++ name))) := by
    intro d
    cases h : name == "Unnamed" <;> simp [tunnelMatches, bne, h]
  induction defs with
  | nil => rfl
  | cons d rest ih =>
    cases hm : (strContains d.args ("--port=" ++ port)
        && (name == "Unnamed" || strContains d.args ("--name=" ++ name)))
    · simp [reconcile, hpred d, hm, List.find?, ih]
    · simp [reconcile, hpred d, hm, List.find?]

/-- C10: the reconciler tests plain substring containment, so a process with
port 80 and name Unnamed is matched to a definition whose args are
--port=8080 even though the ports differ. -/
theorem reconcile_port_prefix_false_positive :
    reconcile "80" "Unnamed" [{ id := "1", args := "--port=8080" }] = (true, some "1")
    ∧ ("80" : String) ≠ "8080" :=
  ⟨by decide, by decide⟩

/-- C4 counterexample: a process-table line whose command token is grep (not
pitunnel) is nevertheless kept by the fallback filter, because the filter is
a whole-line substring test. -/
theorem ps_filter_token_counterexample :
    psLineKept "root 123 0.0 0.0 0 0 ? S 10:00 0:00 grep pitunnel --color" = true
    ∧ commandToken "root 123 0.0 0.0 0 0 ? S 10:00 0:00 grep pitunnel --color" = some "grep"
    ∧ (some "grep" : Option String) ≠ some "pitunnel" :=
  ⟨by decide, by decide, by decide⟩

/-- C4 amended: the fallback keeps a line iff the line contains the substring
" pitunnel " or ends with " pitunnel", and contains none of "<defunct>",
"pitunnel_manager.py", "pitunnel_terminal"; the command token is never
inspected, so a line with pitunnel as a space-delimited word anywhere is
kept even when its command token differs. -/
theorem ps_filter_characterization (line : String) :
    psLineKept line = true ↔
      ((strContains line " pitunnel " = true ∨ strEnds line " pitunnel" = true)
       ∧ strContains line "<defunct>" = false
       ∧ strContains line "pitunnel_manager.py" = false
       ∧ strContains line "pitunnel_terminal" = false) := by
  simp only [psLineKept, Bool.and_eq_true, Bool.or_eq_true, Bool.not_eq_true']
  tauto

/-- C9 counterexample: on the structured path the type field is the raw
third cell of the status row, so a row whose Type cell is TCP yields a
RunningTunnel whose kind is neither HTTP nor Custom. -/
theorem status_type_counterexample :
    get_running_pitunnels
        (Except.ok ["| PID | Port | Type | Name |", "| 7 | 9090 | TCP | t1 |"])
        (Except.ok [])
      = Except.ok ([(⟨"7", "9090", "t1", "TCP", "pitunnel --port=9090 --name=t1"⟩ :
          RunningTunnel)], false)
    ∧ ("TCP" : String) ≠ "HTTP" ∧ ("TCP" : String) ≠ "Custom" :=
  ⟨by rfl, by decide, by decide⟩

/-- C9 amended: on the fallback path every returned tunnel has kind HTTP or
Custom; on the structured path the kind is whatever string stands in the
Type cell of the status table and is not constrained to those two values. -/
theorem fallback_type_http_or_custom (lines : List String) (t : RunningTunnel)
    (h : t ∈ psPath lines) : t.type = "HTTP" ∨ t.type = "Custom" := by
  rcases List.mem_filterMap.mp h with ⟨line, _, hp⟩
  simp only [parsePsLine] at hp
  split at hp
  · cases hb : strContains (pySplit line 10)[10]! "--http" <;>
      simp [hb] at hp <;> rw [← hp]
    · right; rfl
    · left; rfl
  · exact absurd hp (by simp)

/-- Witness for the C9 amended theorem at a concrete ps aux line. -/
theorem fallback_type_http_or_custom_witness :
    (⟨"9", "8080", "Unnamed", "HTTP", "pitunnel --port=8080 --http"⟩ :
      RunningTunnel).type = "HTTP"
    ∨ (⟨"9", "8080", "Unnamed", "HTTP", "pitunnel --port=8080 --http"⟩ :
      RunningTunnel).type = "Custom" :=
  fallback_type_http_or_custom
    ["pi 9 0.0 0.1 10 5 ? S 09:00 0:01 pitunnel --port=8080 --http"] _ (by decide)

/-- C5 counterexample: when the process-listing binary is missing, the
FileNotFoundError is not caught (the outer handler catches only
SubprocessError) and propagates out of get_running_pitunnels instead of
yielding an empty sequence; and a failed status query with a healthy process
listing yields the fallback result, which can be nonempty rather than empty. -/
theorem discovery_failure_counterexample :
    get_running_pitunnels (Except.error CmdError.subprocessError)
        (Except.error CmdError.fileNotFound)
      = Except.error CmdError.fileNotFound
    ∧ get_running_pitunnels (Except.error CmdError.fileNotFound)
        (Except.ok ["pi 9 0.0 0.1 10 5 ? S 09:00 0:01 pitunnel --port=8080 --http"])
      = Except.ok ([(⟨"9", "8080", "Unnamed", "HTTP", "pitunnel --port=8080 --http"⟩ :
          RunningTunnel)], false)
    ∧ ([(⟨"9", "8080", "Unnamed", "HTTP", "pitunnel --port=8080 --http"⟩ :
          RunningTunnel)] : List RunningTunnel) ≠ [] :=
  ⟨by rfl, by rfl, by decide⟩

/-- C5 amended: a failure of the structured status query (missing binary or
subprocess error) makes discovery fall back to the process listing; a
subprocess error from the process listing (such as a non-zero exit) yields
the empty sequence with the warning printed; but a missing process-listing
binary raises FileNotFoundError out of the function, which is not caught. -/
theorem discovery_error_policy (e : CmdError) (lines : List String) :
    get_running_pitunnels (Except.error e) (Except.ok lines)
        = Except.ok (psPath lines, false)
    ∧ get_running_pitunnels (Except.error e) (Except.error CmdError.subprocessError)
        = Except.ok ([], true)
    ∧ get_running_pitunnels (Except.error e) (Except.error CmdError.fileNotFound)
        = Except.error CmdError.fileNotFound :=
  ⟨rfl, rfl, rfl⟩

/-- C6: whenever zero rows parse from the structured status output, discovery
returns exactly what the fallback path returns on the process-table data. -/
theorem status_zero_rows_falls_back (lines : List String)
    (ps : Except CmdError (List String))
    (h : parseStatusLines lines = []) :
    get_running_pitunnels (Except.ok lines) ps = discovery_fallback ps := by
  unfold get_running_pitunnels
  simp [h]

/-- Witness for C6 at a status output holding a header and a border row but
no data rows. -/
theorem status_zero_rows_falls_back_witness :
    get_running_pitunnels (Except.ok ["| PID | Port | Type | Name |", "+----+"])
        (Except.ok [])
      = discovery_fallback (Except.ok []) :=
  status_zero_rows_falls_back ["| PID | Port | Type | Name |", "+----+"]
    (Except.ok []) (by rfl)

/-- Helper: the port loop yields nothing when no input is all-digit. -/
theorem portLoop_eq_none (inputs : List String)
    (h : ∀ s ∈ inputs, pyIsdigit s = false) : portLoop inputs = none := by
  induction inputs with
  | nil => rfl
  | cons p rest ih =>
    have hp := h p (List.mem_cons_self p rest)
    simp [portLoop, hp]
    exact ih (fun s hs => h s (List.mem_cons_of_mem p hs))

/-- Helper: a port accepted by the port loop is all-digit. -/
theorem portLoop_isdigit (inputs : List String) (port : String) (rest : List String)
    (h : portLoop inputs = some (port, rest)) : pyIsdigit port = true := by
  induction inputs with
  | nil => exact absurd h (by simp [portLoop])
  | cons p tail ih =>
    by_cases hp : pyIsdigit p = true
    · rw [portLoop, if_pos hp] at h
      cases h
      exact hp
    · rw [portLoop, if_neg hp] at h
      exact ih h

/-- C7: the create operation launches nothing while every entered port is
non-numeric, and any launched command is exactly the base binary with
--port=(the first all-digit entry), plus --http iff the HTTP kind was chosen
(explicitly as 1 or by default with a blank entry), plus --name=(name) iff a
nonempty name was given, plus --persist iff persistence was answered with y,
all launched only on a y confirmation. -/
theorem create_tunnel_spec :
    (∀ inputs : List String, (∀ s ∈ inputs, pyIsdigit s = false) →
      create_tunnel inputs = none)
    ∧ (∀ inputs cmd : List String, create_tunnel inputs = some cmd →
      ∃ (port t n p c : String) (rest : List String),
        portLoop inputs = some (port, t :: n :: p :: c :: rest)
        ∧ pyIsdigit port = true
        ∧ strStarts (pyLower c) "y" = true
        ∧ cmd = ["pitunnel", "--port=" ++ port]
            ++ (if pyStrip t == "" || pyStrip t == "1" then ["--http"] else [])
            ++ (if pyStrip n != "" then ["--name=" ++ pyStrip n] else [])
            ++ (if strStarts (pyLower p) "y" then ["--persist"] else [])) := by
  constructor
  · intro inputs h
    unfold create_tunnel
    rw [portLoop_eq_none inputs h]
  · intro inputs cmd h
    unfold create_tunnel at h
    cases hpl : portLoop inputs with
    | none => rw [hpl] at h; exact absurd h (by simp)
    | some pr =>
      obtain ⟨port, rest⟩ := pr
      rw [hpl] at h
      rcases rest with _ | ⟨t, _ | ⟨n, _ | ⟨p, _ | ⟨c, rest2⟩⟩⟩⟩
      · exact absurd h (by simp)
      · exact absurd h (by simp)
      · exact absurd h (by simp)
      · exact absurd h (by simp)
      · dsimp only at h
        by_cases hc : strStarts (pyLower c) "y" = true
        · rw [if_pos hc] at h
          injection h with h
          refine ⟨port, t, n, p, c, rest2, rfl,
            portLoop_isdigit inputs port _ hpl, hc, ?_⟩
          rw [← h]
          by_cases ht : (pyStrip t == "") = true
          · simp [create_command, ht]
          · simp [create_command, ht, Bool.not_eq_true]
        · rw [if_neg hc] at h
          cases h

/-- Witness for C7: a non-numeric port entry alone never launches. -/
theorem create_tunnel_spec_witness :
    create_tunnel ["abc", "x2y"] = none :=
  create_tunnel_spec.1 ["abc", "x2y"] (by decide)

/-- C8 counterexample: invoking remove on a non-empty running list and
entering 0 still issues one external command, the pitunnel --list registry
query, which runs before the selection prompt. -/
theorem remove_cancel_counterexample :
    remove_tunnel [(⟨"1", "80", "Unnamed", "HTTP", "c"⟩ : RunningTunnel)] [] ["0"]
      = [ExtCall.listQuery]
    ∧ ([ExtCall.listQuery] : List ExtCall) ≠ [] :=
  ⟨by rfl, by decide⟩

/-- C8 amended: remove on a non-empty list issues the registry list query
first; a selection of 0 then returns with no further external call, and an
out-of-range or non-numeric selection re-prompts without issuing anything. -/
theorem remove_cancel_and_reprompt :
    (∀ (procs : List RunningTunnel) (defs : List PersistentTunnel)
        (rest : List String), procs ≠ [] →
      remove_tunnel procs defs ("0" :: rest) = [ExtCall.listQuery])
    ∧ (∀ (procs : List RunningTunnel) (defs : List PersistentTunnel)
        (choice : String) (rest : List String), choice ≠ "0" →
      pyInt choice = none →
      remove_tunnel_loop procs defs (choice :: rest)
        = remove_tunnel_loop procs defs rest)
    ∧ (∀ (procs : List RunningTunnel) (defs : List PersistentTunnel)
        (choice : String) (rest : List String) (n : Int), choice ≠ "0" →
      pyInt choice = some n → ¬(1 ≤ n ∧ n ≤ (procs.length : Int)) →
      remove_tunnel_loop procs defs (choice :: rest)
        = remove_tunnel_loop procs defs rest) := by
  refine ⟨?_, ?_, ?_⟩
  · intro procs defs rest hne
    cases procs with
    | nil => exact absurd rfl hne
    | cons a l => simp [remove_tunnel, remove_tunnel_loop]
  · intro procs defs choice rest hc0 hn
    have hbeq : (choice == "0") = false := beq_eq_false_iff_ne.mpr hc0
    simp only [remove_tunnel_loop, hbeq, hn]
    rfl
  · intro procs defs choice rest n hc0 hn hrange
    have hbeq : (choice == "0") = false := beq_eq_false_iff_ne.mpr hc0
    simp only [remove_tunnel_loop, hbeq, hn, if_neg hrange]
    rfl

/-- Witness for the C8 amended theorem: one process, selection 0. -/
theorem remove_cancel_and_reprompt_witness :
    remove_tunnel [(⟨"9", "80", "Unnamed", "HTTP", "c"⟩ : RunningTunnel)] []
        ["0", "junk"] = [ExtCall.listQuery] :=
  remove_cancel_and_reprompt.1
    [(⟨"9", "80", "Unnamed", "HTTP", "c"⟩ : RunningTunnel)] [] ["junk"] (by decide)

/-- C2 counterexample: a confirmed removal of a matched running tunnel issues
the remove-by-id command but never the stop-by-port command for its port. -/
theorem remove_matched_counterexample :
    remove_tunnel
        [(⟨"1234", "8080", "foo", "HTTP", "pitunnel --port=8080 --http --name=foo"⟩ :
          RunningTunnel)]
        [(⟨"5", "--port=8080 --name=foo --http"⟩ : PersistentTunnel)] ["1", "y"]
      = [ExtCall.listQuery, ExtCall.removeById "5"]
    ∧ ExtCall.stopByPort "8080" ∉ [ExtCall.listQuery, ExtCall.removeById "5"] :=
  ⟨by rfl, by decide⟩

/-- C2 amended: for every confirmed removal of a selected running tunnel that
the reconciler matched to a persistent definition with a nonempty id, the
program issues the external remove-by-id command and nothing further; it does
not issue the stop-by-port command, relying on the external tool to stop the
running process. -/
theorem remove_matched_remove_only
    (procs : List RunningTunnel) (defs : List PersistentTunnel)
    (choice confirm : String) (rest : List String) (n : Int) (tid : String)
    (hne : procs ≠ [])
    (hc0 : choice ≠ "0")
    (hn : pyInt choice = some n)
    (hrange : 1 ≤ n ∧ n ≤ (procs.length : Int))
    (hconfirm : strStarts (pyLower confirm) "y" = true)
    (hmatch : reconcile (procs[(n - 1).toNat]!).port (procs[(n - 1).toNat]!).name defs
      = (true, some tid))
    (hid : tid ≠ "") :
    remove_tunnel procs defs (choice :: confirm :: rest)
      = [ExtCall.listQuery, ExtCall.removeById tid] := by
  have hbeq : (choice == "0") = false := beq_eq_false_iff_ne.mpr hc0
  have hidb : (tid != "") = true := by
    simp only [bne, Bool.not_eq_true', Bool.not_eq_false]
    exact beq_eq_false_iff_ne.mpr hid
  have hpe : procs.isEmpty = false := by
    cases procs with
    | nil => exact absurd rfl hne
    | cons a l => rfl
  simp only [remove_tunnel, hpe, Bool.false_eq_true, if_false]
  simp only [remove_tunnel_loop, hbeq, hn, if_pos hrange]
  rw [hmatch]
  simp [hconfirm, hidb]

/-- Witness for the C2 amended theorem at a concrete matched removal. -/
theorem remove_matched_remove_only_witness :
    remove_tunnel
        [(⟨"1234", "8081", "bar", "HTTP", "pitunnel --port=8081 --http --name=bar"⟩ :
          RunningTunnel)]
        [(⟨"6", "--port=8081 --name=bar --http"⟩ : PersistentTunnel)] ["1", "yes"]
      = [ExtCall.listQuery, ExtCall.removeById "6"] :=
  remove_matched_remove_only
    [(⟨"1234", "8081", "bar", "HTTP", "pitunnel --port=8081 --http --name=bar"⟩ :
      RunningTunnel)]
    [(⟨"6", "--port=8081 --name=bar --http"⟩ : PersistentTunnel)]
    "1" "yes" [] 1 "6" (by decide) (by decide) (by decide) (by decide)
    (by decide) (by decide) (by decide)

/-- C3 counterexample: a confirmed removal of an unmatched running tunnel
invokes the external tool stop-by-port command and sends no signal to the
process id. -/
theorem remove_unmatched_counterexample :
    remove_tunnel
        [(⟨"999", "9090", "Unnamed", "Custom", "pitunnel --port=9090"⟩ :
          RunningTunnel)] [] ["1", "y"]
      = [ExtCall.listQuery, ExtCall.stopByPort "9090"]
    ∧ ExtCall.signalPid "999" ∉ [ExtCall.listQuery, ExtCall.stopByPort "9090"] :=
  ⟨by rfl, by decide⟩

/-- C3 amended: for every confirmed removal of a selected running tunnel that
the reconciler did not match to any persistent definition, the program
invokes the external tool stop-by-port command for the process port; it does
not send a termination signal to the process id. -/
theorem remove_unmatched_stops_by_port
    (procs : List RunningTunnel) (defs : List PersistentTunnel)
    (choice confirm : String) (rest : List String) (n : Int)
    (hne : procs ≠ [])
    (hc0 : choice ≠ "0")
    (hn : pyInt choice = some n)
    (hrange : 1 ≤ n ∧ n ≤ (procs.length : Int))
    (hconfirm : strStarts (pyLower confirm) "y" = true)
    (hmatch : reconcile (procs[(n - 1).toNat]!).port (procs[(n - 1).toNat]!).name defs
      = (false, none)) :
    remove_tunnel procs defs (choice :: confirm :: rest)
      = [ExtCall.listQuery, ExtCall.stopByPort (procs[(n - 1).toNat]!).port] := by
  have hbeq : (choice == "0") = false := beq_eq_false_iff_ne.mpr hc0
  have hpe : procs.isEmpty = false := by
    cases procs with
    | nil => exact absurd rfl hne
    | cons a l => rfl
  simp only [remove_tunnel, hpe, Bool.false_eq_true, if_false]
  simp only [remove_tunnel_loop, hbeq, hn, if_pos hrange]
  rw [hmatch]
  simp [hconfirm]

/-- Witness for the C3 amended theorem at a concrete unmatched removal. -/
theorem remove_unmatched_stops_by_port_witness :
    remove_tunnel
        [(⟨"777", "7070", "Unnamed", "Custom", "pitunnel --port=7070"⟩ :
          RunningTunnel)] [] ["1", "yes"]
      = [ExtCall.listQuery, ExtCall.stopByPort "7070"] :=
  remove_unmatched_stops_by_port
    [(⟨"777", "7070", "Unnamed", "Custom", "pitunnel --port=7070"⟩ :
      RunningTunnel)] [] "1" "yes" [] 1 (by decide) (by decide) (by decide)
    (by decide) (by decide) (by decide)
